import Mathlib

/-!
Shallow embedding of the praxis-bilde subscription checkout flow:
the client-side initiator `handleSubscribe` (SubscriptionPage.tsx) and the
server-side billing creation handler `serve` (the Deno edge function
bundled in the same source file).

JavaScript numbers are IEEE-754 binary64 values; we embed them as the exact
rational value of the double, with `toDouble` performing round-to-nearest-even
binary64 rounding (normal finite range, which covers every number this flow
manipulates).
-/

namespace Praxis

/-! ## Binary64 (JavaScript number) model -/

/-- Round-to-nearest, ties-to-even, of a rational to an integer.
This is the rounding IEEE-754 applies to the scaled significand. -/
def rne (s : ℚ) : ℤ :=
  let m := ⌊s⌋
  if s < (m:ℚ) + 1/2 then m
  else if (m:ℚ) + 1/2 < s then m + 1
  else if m % 2 = 0 then m else m + 1

/-- `q * 2 ^ e` for an integer exponent `e`. -/
def mulPow2 (q : ℚ) (e : ℤ) : ℚ :=
  if 0 ≤ e then q * (2:ℚ) ^ e.toNat else q / (2:ℚ) ^ (-e).toNat

/-- `⌊log₂ q⌋` for a positive rational `q`: for `q ≥ 1` the bit length of
`⌊q⌋` minus one; below 1 the matching negative exponent. -/
def floorLog2 (q : ℚ) : ℤ :=
  if 1 ≤ q then (Nat.log2 ⌊q⌋.toNat : ℤ)
  else
    let k := Nat.log2 ⌊1/q⌋.toNat
    if (2:ℚ) ^ k * q = 1 then -(k:ℤ) else -(k:ℤ) - 1

/-- The binary64 double nearest a positive rational (53-bit significand,
round-to-nearest-even, normal range), as an exact rational. -/
def toDoublePos (q : ℚ) : ℚ :=
  let e := floorLog2 q
  mulPow2 (rne (mulPow2 q (52 - e)) : ℚ) (e - 52)

/-- The binary64 double nearest a rational (normal finite range), as an
exact rational. Models parsing a JavaScript numeric literal / JSON number. -/
def toDouble (q : ℚ) : ℚ :=
  if q = 0 then 0
  else if 0 < q then toDoublePos q
  else -(toDoublePos (-q))

/-- A JavaScript numeric literal: the double it denotes. -/
def jsNumber (q : ℚ) : ℚ := toDouble q

/-- JavaScript `*` on doubles: exact product, rounded back to binary64. -/
def jsMul (a b : ℚ) : ℚ := toDouble (a * b)

/-- JavaScript `Math.round`: nearest integer, ties toward +infinity
(ECMA-262 definition, applied to the exact value of the double). -/
def mathRound (x : ℚ) : ℤ := ⌊x + 1/2⌋

/-! ## Data model (edge function) -/

/-- The `user_data` object of the request body. -/
structure UserData where
  name : String
  email : String
  cpf : String
deriving DecidableEq, Repr

/-- The JSON request body of the billing creation handler
(interface `BillingRequest` in the source). `amount` is the exact value of
the transmitted double. -/
structure BillingRequest where
  user_id : String
  user_data : UserData
  amount : ℚ
  description : String
deriving DecidableEq, Repr

/-- One HTTP header. -/
structure Header where
  name : String
  value : String
deriving DecidableEq, Repr

/-- `corsHeaders` from the source: the permissive cross-origin headers. -/
def corsHeaders : List Header :=
  [⟨"Access-Control-Allow-Origin", "*"⟩,
   ⟨"Access-Control-Allow-Headers", "authorization, x-client-info, apikey, content-type"⟩]

def contentTypeJson : Header := ⟨"Content-Type", "application/json"⟩

/-- An inbound HTTP request as the handler observes it: method string,
optional Authorization header, and the parsed JSON body (`none` when the
body is not valid JSON for the expected shape; `bodyErrorMsg` is the message
of the exception `req.json()` throws in that case, determined by the raw
body text). -/
structure Request where
  method : String
  authorization : Option String
  body : Option BillingRequest
  bodyErrorMsg : String
deriving DecidableEq, Repr

/-- The AbacatePay provider's response as the handler observes it:
`ok` (HTTP success), numeric status, `data.id`, `data.url`, and the error
body text read on failure. -/
structure ProviderResponse where
  ok : Bool
  status : ℕ
  dataId : String
  dataUrl : String
  errorText : String
deriving DecidableEq, Repr

/-- The environment of one handler invocation: the provider's response to
the outbound call, the outcomes of the two database writes (`some msg` =
error with that message), and the two ISO timestamps the handler computes
(`new Date()` and one month later). -/
structure Env where
  provider : ProviderResponse
  upsertError : Option String
  insertError : Option String
  nowIso : String
  nextMonthIso : String
deriving DecidableEq, Repr

/-- A row of the `user_profiles` table as written by this flow. -/
structure SubscriptionRecord where
  user_id : String
  assinatura_id : String
  data_assinatura : String
  proximo_pagamento : String
  assinatura_ativa : Bool
  updated_at : String
deriving DecidableEq, Repr

/-- A row of the `pagamentos` table as written by this flow. -/
structure PaymentRecord where
  user_id : String
  assinatura_id : String
  efi_charge_id : String
  valor : ℚ
  metodo_pagamento : String
  status : String
deriving DecidableEq, Repr

/-- The database state the handler can touch. -/
structure Db where
  user_profiles : List SubscriptionRecord
  pagamentos : List PaymentRecord
deriving DecidableEq, Repr

/-- Supabase `upsert` keyed by `user_id`: overwrite the matching row if one
exists, otherwise append the new row. -/
def upsertProfile (r : SubscriptionRecord) (l : List SubscriptionRecord) :
    List SubscriptionRecord :=
  if l.any (fun s => s.user_id == r.user_id) then
    l.map (fun s => if s.user_id == r.user_id then r else s)
  else
    l ++ [r]

/-- A product line of the AbacatePay billing payload. -/
structure Product where
  externalId : String
  name : String
  description : String
  quantity : ℕ
  price : ℤ
deriving DecidableEq, Repr

/-- The AbacatePay billing payload (`billingData` in the source). -/
structure BillingData where
  frequency : String
  methods : List String
  customerName : String
  customerEmail : String
  customerTaxId : String
  customerCellphone : String
  products : List Product
deriving DecidableEq, Repr

/-- `billingData` construction (source lines 256-272): fixed monthly PIX
billing, customer from `user_data`, a single product whose `externalId` is
derived from `user_id` and whose price is `Math.round(amount * 100)` in
binary64 arithmetic. -/
def mkBillingData (b : BillingRequest) : BillingData :=
  { frequency := "MONTHLY"
    methods := ["PIX"]
    customerName := b.user_data.name
    customerEmail := b.user_data.email
    customerTaxId := b.user_data.cpf
    customerCellphone := ""
    products := [{ externalId := "praxis-monthly-" ++ b.user_id
                   name := "PRAXIS - Assinatura Mensal"
                   description := b.description
                   quantity := 1
                   price := mathRound (jsMul b.amount 100) }] }

/-- The body of an HTTP response the handler can produce. -/
inductive ResponseBody where
  | empty : ResponseBody
  | text (s : String) : ResponseBody
  | jsonOk (success : Bool) (billing_id : String) (redirect_url : String)
      (message : String) : ResponseBody
  | jsonErr (error : String) (message : String) : ResponseBody
deriving DecidableEq, Repr

/-- An HTTP response. -/
structure HttpResponse where
  status : ℕ
  headers : List Header
  body : ResponseBody
deriving DecidableEq, Repr

/-- The observable outcome of one handler invocation: the HTTP response,
the final database state, and the payload of the outbound provider call
(`none` when no provider call was made). -/
structure ServeResult where
  response : HttpResponse
  db : Db
  providerCalled : Option BillingData
deriving DecidableEq, Repr

/-- The generic `error` field of every failure response. -/
def genericError : String := "Falha ao criar cobrança"

/-- The edge function handler (source lines 225-360). OPTIONS is answered
with an empty 200 carrying the CORS headers; any method other than POST gets
405; otherwise the body is parsed, the provider is called, and on provider
success the subscription upsert and the payment insert run in order, any
thrown error being caught and returned as a 500 with the generic error and
the thrown error's message. -/
def serve (req : Request) (env : Env) (db : Db) : ServeResult :=
  if req.method == "OPTIONS" then
    ⟨⟨200, corsHeaders, .empty⟩, db, none⟩
  else if req.method != "POST" then
    ⟨⟨405, corsHeaders, .text "Method not allowed"⟩, db, none⟩
  else
    match req.body with
    | none =>
        ⟨⟨500, corsHeaders ++ [contentTypeJson],
          .jsonErr genericError req.bodyErrorMsg⟩, db, none⟩
    | some b =>
        let billingData := mkBillingData b
        if !env.provider.ok then
          ⟨⟨500, corsHeaders ++ [contentTypeJson],
            .jsonErr genericError
              ("AbacatePay API error: " ++ toString env.provider.status)⟩,
           db, some billingData⟩
        else
          let bid := env.provider.dataId
          let sub : SubscriptionRecord :=
            { user_id := b.user_id
              assinatura_id := bid
              data_assinatura := env.nowIso
              proximo_pagamento := env.nextMonthIso
              assinatura_ativa := false
              updated_at := env.nowIso }
          match env.upsertError with
          | some e =>
              ⟨⟨500, corsHeaders ++ [contentTypeJson],
                .jsonErr genericError e⟩, db, some billingData⟩
          | none =>
              let db1 : Db := ⟨upsertProfile sub db.user_profiles, db.pagamentos⟩
              match env.insertError with
              | some e =>
                  ⟨⟨500, corsHeaders ++ [contentTypeJson],
                    .jsonErr genericError e⟩, db1, some billingData⟩
              | none =>
                  let pay : PaymentRecord :=
                    { user_id := b.user_id
                      assinatura_id := bid
                      efi_charge_id := bid
                      valor := b.amount
                      metodo_pagamento := "pix"
                      status := "pending" }
                  let db2 : Db := ⟨db1.user_profiles, db1.pagamentos ++ [pay]⟩
                  ⟨⟨200, corsHeaders ++ [contentTypeJson],
                    .jsonOk true bid env.provider.dataUrl
                      "Cobrança criada com sucesso"⟩, db2, some billingData⟩

/-! ## Client-side initiator (SubscriptionPage.tsx) -/

/-- The authenticated user context the page reads (`user` from `useAuth`):
id, optional email, and the optional `user_metadata` fields. -/
structure AuthUser where
  id : String
  email : Option String
  full_name : Option String
  cpf : Option String
deriving DecidableEq, Repr

/-- JavaScript `a || b` on an optional string: `b` when `a` is
undefined or the empty string (the falsy strings arising here). -/
def jsOr (a : Option String) (b : String) : String :=
  match a with
  | none => b
  | some s => if s == "" then b else s

/-- `email.split('@')[0]`: the part before the first `@`. -/
def localPart (e : String) : String := (e.splitOn "@").headD ""

/-- The outbound request `handleSubscribe` issues to the edge function. -/
structure OutboundRequest where
  url : String
  method : String
  authorization : String
  body_user_id : String
  body_name : String
  body_email : Option String
  body_cpf : String
  body_amount : ℚ
  body_description : String
deriving DecidableEq, Repr

/-- The payload construction of `handleSubscribe` (source lines 26-41). -/
def subscribeRequest (u : AuthUser) : OutboundRequest :=
  { url := "https://praxiis.xyz/functions/v1/create-abacatepay-billing"
    method := "POST"
    authorization := "Bearer " ++ u.id
    body_user_id := u.id
    body_name := jsOr u.full_name (jsOr (u.email.map localPart) "Cliente")
    body_email := u.email
    body_cpf := jsOr u.cpf "00000000000"
    body_amount := jsNumber (99/10)
    body_description := "Assinatura mensal PRAXIS" }

/-- What `handleSubscribe` does before any network activity. -/
inductive SubscribeAction where
  | unauthenticated (toastMsg : String) (navigateTo : String) : SubscribeAction
  | request (r : OutboundRequest) : SubscribeAction
deriving DecidableEq, Repr

/-- `handleSubscribe` (source lines 15-42): with no user it toasts and
navigates to the login route without issuing a request; otherwise it issues
exactly the constructed request. -/
def handleSubscribe (user : Option AuthUser) : SubscribeAction :=
  match user with
  | none => .unauthenticated "Você precisa estar logado para assinar" "/auth/login"
  | some u => .request (subscribeRequest u)

/-! ## Sample values (the spec's end-to-end scenario) -/

/-- The request body the initiator builds for the scenario user. -/
def sampleBody : BillingRequest :=
  { user_id := "abc123"
    user_data := { name := "Maria Silva", email := "maria@x.com", cpf := "00000000000" }
    amount := jsNumber (99/10)
    description := "Assinatura mensal PRAXIS" }

/-- A POST request carrying the sample body. -/
def samplePost : Request :=
  { method := "POST"
    authorization := some "Bearer abc123"
    body := some sampleBody
    bodyErrorMsg := "" }

/-- An empty database. -/
def emptyDb : Db := ⟨[], []⟩

/-- The provider mock of the spec's success scenario. -/
def okProvider : ProviderResponse :=
  ⟨true, 200, "bill_1", "https://pay/bill_1", ""⟩

/-- The provider mock of the spec's failure scenario (HTTP 402). -/
def failProvider : ProviderResponse :=
  ⟨false, 402, "", "", "payment required"⟩

/-- Environment where the provider call and both writes succeed. -/
def okEnv : Env :=
  ⟨okProvider, none, none, "2026-10-11T00:00:00.000Z", "2026-11-11T00:00:00.000Z"⟩

/-- Environment where the provider call fails with 402. -/
def providerFailEnv : Env :=
  ⟨failProvider, none, none, "2026-10-11T00:00:00.000Z", "2026-11-11T00:00:00.000Z"⟩

/-- Environment where the provider call succeeds and the profile upsert
fails. -/
def upsertFailEnv : Env :=
  ⟨okProvider, some "db write failed", none,
   "2026-10-11T00:00:00.000Z", "2026-11-11T00:00:00.000Z"⟩

/-- The scenario's authenticated user: full name and email, no cpf. -/
def mariaUser : AuthUser :=
  { id := "abc123"
    email := some "maria@x.com"
    full_name := some "Maria Silva"
    cpf := none }

/-! ## Helper lemmas -/

lemma mem_upsertProfile (r : SubscriptionRecord) (l : List SubscriptionRecord) :
    r ∈ upsertProfile r l := by
  unfold upsertProfile
  split
  · next h =>
      rcases List.any_eq_true.mp h with ⟨s, hs, hseq⟩
      exact List.mem_map.mpr ⟨s, hs, by rw [if_pos hseq]⟩
  · simp

lemma upsertProfile_mem_elim {x r : SubscriptionRecord}
    {l : List SubscriptionRecord} (h : x ∈ upsertProfile r l) :
    x = r ∨ x ∈ l := by
  unfold upsertProfile at h
  split at h
  · rcases List.mem_map.mp h with ⟨s, hs, hx⟩
    by_cases hc : (s.user_id == r.user_id) = true
    · rw [if_pos hc] at hx
      exact Or.inl hx.symm
    · rw [if_neg hc] at hx
      exact Or.inr (hx ▸ hs)
  · rcases List.mem_append.mp h with h | h
    · exact Or.inr h
    · exact Or.inl (List.mem_singleton.mp h)

/-! ## Binary64 evaluation lemmas -/

lemma log2_nine : Nat.log2 9 = 3 := by
  rw [Nat.log2_eq_log_two]
  exact Nat.log_eq_of_pow_le_of_lt_pow (by norm_num) (by norm_num)

lemma log2_990 : Nat.log2 990 = 9 := by
  rw [Nat.log2_eq_log_two]
  exact Nat.log_eq_of_pow_le_of_lt_pow (by norm_num) (by norm_num)

lemma floorLog2_nine_nine : floorLog2 (99/10) = 3 := by
  unfold floorLog2
  rw [if_pos (by norm_num)]
  norm_num
  rw [show Int.toNat 9 = 9 from rfl, log2_nine]
  norm_num

lemma floorLog2_nine_905 : floorLog2 (9905/1000) = 3 := by
  unfold floorLog2
  rw [if_pos (by norm_num)]
  norm_num
  rw [show Int.toNat 9 = 9 from rfl, log2_nine]
  norm_num

/-- The double nearest the literal `9.9`: `9.9` is not a dyadic rational, so
the parsed value is slightly above it. -/
lemma toDouble_nine_nine :
    toDouble (99/10) = 5573204538870989/562949953421312 := by
  unfold toDouble toDoublePos
  rw [if_neg (by norm_num), if_pos (by norm_num), floorLog2_nine_nine]
  norm_num [mulPow2, rne, show Int.toNat 49 = 49 from rfl]

/-- The double nearest the literal `9.905` is slightly below it. -/
lemma toDouble_nine_905 :
    toDouble (9905/1000) = 5576019288638095/562949953421312 := by
  unfold toDouble toDoublePos
  rw [if_neg (by norm_num), if_pos (by norm_num), floorLog2_nine_905]
  norm_num [mulPow2, rne, show Int.toNat 49 = 49 from rfl]

lemma floorLog2_prod_nine_nine :
    floorLog2 (5573204538870989/562949953421312 * 100) = 9 := by
  unfold floorLog2
  rw [if_pos (by norm_num)]
  norm_num
  rw [show Int.toNat 990 = 990 from rfl, log2_990]
  norm_num

/-- In binary64 arithmetic `9.9 * 100` is exactly `990`. -/
lemma jsMul_nine_nine : jsMul (jsNumber (99/10)) 100 = 990 := by
  rw [jsNumber, toDouble_nine_nine, jsMul]
  unfold toDouble toDoublePos
  rw [if_neg (by norm_num), if_pos (by norm_num), floorLog2_prod_nine_nine]
  norm_num [mulPow2, rne, show Int.toNat 43 = 43 from rfl]

lemma floorLog2_prod_nine_905 :
    floorLog2 (5576019288638095/562949953421312 * 100) = 9 := by
  unfold floorLog2
  rw [if_pos (by norm_num)]
  norm_num
  rw [show Int.toNat 990 = 990 from rfl, log2_990]
  norm_num

/-- In binary64 arithmetic `9.905 * 100` is `990.4999999999999…`, strictly
below `990.5`. -/
lemma jsMul_nine_905 :
    jsMul (jsNumber (9905/1000)) 100 = 8712530138497023/8796093022208 := by
  rw [jsNumber, toDouble_nine_905, jsMul]
  unfold toDouble toDoublePos
  rw [if_neg (by norm_num), if_pos (by norm_num), floorLog2_prod_nine_905]
  norm_num [mulPow2, rne, show Int.toNat 43 = 43 from rfl]

/-- `Math.round(9.9 * 100)` evaluates to `990`. -/
lemma round_nine_nine : mathRound (jsMul (jsNumber (99/10)) 100) = 990 := by
  rw [jsMul_nine_nine, mathRound]
  norm_num

/-- `Math.round(9.905 * 100)` evaluates to `990`, not `991`. -/
lemma round_nine_905 : mathRound (jsMul (jsNumber (9905/1000)) 100) = 990 := by
  rw [jsMul_nine_905, mathRound]
  norm_num

/-! ## Claim theorems -/

/-- C1: for every valid POST request whose provider call succeeds and whose
handler run completes (both writes succeed), the final database holds a
SubscriptionRecord and a PaymentRecord sharing the provider's billing
identifier, and the response is HTTP 200 with
`{success: true, billing_id, redirect_url, message}` taken from the
provider's `data.id` and `data.url`. -/
theorem serve_success_creates_records (req : Request) (env : Env) (db : Db)
    (b : BillingRequest) (hm : req.method = "POST") (hb : req.body = some b)
    (hp : env.provider.ok = true) (hu : env.upsertError = none)
    (hi : env.insertError = none) :
    (∃ s ∈ (serve req env db).db.user_profiles,
        s.user_id = b.user_id ∧ s.assinatura_id = env.provider.dataId) ∧
    (∃ p ∈ (serve req env db).db.pagamentos,
        p.user_id = b.user_id ∧ p.assinatura_id = env.provider.dataId) ∧
    (serve req env db).response.status = 200 ∧
    (serve req env db).response.body =
      .jsonOk true env.provider.dataId env.provider.dataUrl
        "Cobrança criada com sucesso" := by
  simp only [serve, hm, hb, hp, hu, hi]
  simp only [reduceIte, Bool.not_true, Bool.false_eq_true, if_false]
  exact ⟨⟨_, mem_upsertProfile _ _, rfl, rfl⟩,
    ⟨_, List.mem_append_right _ (List.mem_singleton_self _), rfl, rfl⟩,
    rfl, rfl⟩

/-- Witness for C1: the spec's success scenario. -/
theorem serve_success_creates_records_witness :
    (∃ s ∈ (serve samplePost okEnv emptyDb).db.user_profiles,
        s.user_id = sampleBody.user_id ∧
        s.assinatura_id = okEnv.provider.dataId) ∧
    (∃ p ∈ (serve samplePost okEnv emptyDb).db.pagamentos,
        p.user_id = sampleBody.user_id ∧
        p.assinatura_id = okEnv.provider.dataId) ∧
    (serve samplePost okEnv emptyDb).response.status = 200 ∧
    (serve samplePost okEnv emptyDb).response.body =
      .jsonOk true okEnv.provider.dataId okEnv.provider.dataUrl
        "Cobrança criada com sucesso" :=
  serve_success_creates_records samplePost okEnv emptyDb sampleBody
    rfl rfl rfl rfl rfl

/-- C2: when the provider call returns a non-success status on a POST with a
parsed body, the handler answers 500 and the database is unchanged. -/
theorem serve_provider_failure_no_writes (req : Request) (env : Env) (db : Db)
    (b : BillingRequest) (hm : req.method = "POST") (hb : req.body = some b)
    (hp : env.provider.ok = false) :
    (serve req env db).db = db ∧
    (serve req env db).response.status = 500 := by
  simp only [serve, hm, hb, hp]
  simp only [reduceIte, Bool.not_false, if_true]
  exact ⟨rfl, rfl⟩

/-- Witness for C2: the spec's 402 scenario. -/
theorem serve_provider_failure_no_writes_witness :
    (serve samplePost providerFailEnv emptyDb).db = emptyDb ∧
    (serve samplePost providerFailEnv emptyDb).response.status = 500 :=
  serve_provider_failure_no_writes samplePost providerFailEnv emptyDb
    sampleBody rfl rfl rfl

/-- C3 counterexample: the claim says input `9.905` yields transmitted
integer `991`; the code computes `Math.round(9.905 * 100)` in binary64
arithmetic, where `9.905 * 100` evaluates to `990.4999999999999…`, so the
transmitted integer is `990`, not `991`. -/
theorem amount_conversion_counterexample :
    mathRound (jsMul (jsNumber (9905/1000)) 100) = 990 ∧
    mathRound (jsMul (jsNumber (9905/1000)) 100) ≠ 991 := by
  refine ⟨round_nine_905, ?_⟩
  rw [round_nine_905]
  decide

/-- C3 amended: the handler converts the amount to minor units as
`Math.round(amount * 100)` in binary64 arithmetic; input `9.90` yields the
transmitted integer `990`, and input `9.905` also yields `990` (not `991`),
because the double product lies strictly below `990.5`. -/
theorem amount_conversion_binary64 (b : BillingRequest)
    (h : b.amount = jsNumber (99/10) ∨ b.amount = jsNumber (9905/1000)) :
    (mkBillingData b).products.map Product.price = [(990:ℤ)] := by
  rcases h with h | h <;>
    simp only [mkBillingData, List.map_cons, List.map_nil, h,
      round_nine_nine, round_nine_905]

/-- Witness for C3's amended theorem: the initiator's fixed amount `9.90`. -/
theorem amount_conversion_binary64_witness :
    (mkBillingData sampleBody).products.map Product.price = [(990:ℤ)] :=
  amount_conversion_binary64 sampleBody (Or.inl rfl)

/-- C4: every SubscriptionRecord this flow writes has
`assinatura_ativa = false`: any profile row present after a handler run was
either already in the database or has the flag false. -/
theorem serve_never_activates_subscription (req : Request) (env : Env)
    (db : Db) (s : SubscriptionRecord)
    (h : s ∈ (serve req env db).db.user_profiles) :
    s ∈ db.user_profiles ∨ s.assinatura_ativa = false := by
  revert h
  unfold serve
  split
  · exact fun h => Or.inl h
  · split
    · exact fun h => Or.inl h
    · split
      · exact fun h => Or.inl h
      · split
        · exact fun h => Or.inl h
        · split
          · exact fun h => Or.inl h
          · split
            · intro h
              rcases upsertProfile_mem_elim h with he | he
              · exact Or.inr (by rw [he])
              · exact Or.inl he
            · intro h
              rcases upsertProfile_mem_elim h with he | he
              · exact Or.inr (by rw [he])
              · exact Or.inl he

/-- Witness for C4: the record written in the success scenario is not
pre-existing, so its activation flag is false. -/
theorem serve_never_activates_subscription_witness :
    ({ user_id := "abc123", assinatura_id := "bill_1",
       data_assinatura := "2026-10-11T00:00:00.000Z",
       proximo_pagamento := "2026-11-11T00:00:00.000Z",
       assinatura_ativa := false,
       updated_at := "2026-10-11T00:00:00.000Z" } : SubscriptionRecord)
        ∈ emptyDb.user_profiles ∨
    ({ user_id := "abc123", assinatura_id := "bill_1",
       data_assinatura := "2026-10-11T00:00:00.000Z",
       proximo_pagamento := "2026-11-11T00:00:00.000Z",
       assinatura_ativa := false,
       updated_at := "2026-10-11T00:00:00.000Z" } : SubscriptionRecord).assinatura_ativa
      = false :=
  serve_never_activates_subscription samplePost okEnv emptyDb _
    (List.mem_singleton_self _)

/-- C5 counterexample: the claim says the caller cannot tell from the
response which step failed; but a provider failure and a database failure
produce different `message` fields (the underlying errors' descriptions),
so the two failure responses are distinguishable. -/
theorem error_message_distinguishes_step :
    (serve samplePost providerFailEnv emptyDb).response.status = 500 ∧
    (serve samplePost providerFailEnv emptyDb).response.body =
      .jsonErr genericError "AbacatePay API error: 402" ∧
    (serve samplePost upsertFailEnv emptyDb).response.status = 500 ∧
    (serve samplePost upsertFailEnv emptyDb).response.body =
      .jsonErr genericError "db write failed" ∧
    (serve samplePost providerFailEnv emptyDb).response.body ≠
      (serve samplePost upsertFailEnv emptyDb).response.body := by
  refine ⟨rfl, rfl, rfl, rfl, ?_⟩
  decide

/-- C5 amended: every provider or database failure is answered with HTTP 500
and a body `{error, message}` whose `error` field is the one generic string;
the `message` field, however, carries the underlying error's description, so
the caller may be able to tell which step failed. -/
theorem serve_error_generic_error_field (req : Request) (env : Env) (db : Db)
    (h : (serve req env db).response.status = 500) :
    ∃ m, (serve req env db).response.body = .jsonErr genericError m := by
  revert h
  unfold serve
  split
  · intro h
    simp at h
  · split
    · intro h
      simp at h
    · split
      · exact fun _ => ⟨_, rfl⟩
      · split
        · exact fun _ => ⟨_, rfl⟩
        · split
          · exact fun _ => ⟨_, rfl⟩
          · split
            · exact fun _ => ⟨_, rfl⟩
            · intro h
              simp at h

/-- Witness for C5's amended theorem: the provider-failure scenario. -/
theorem serve_error_generic_error_field_witness :
    ∃ m, (serve samplePost providerFailEnv emptyDb).response.body =
      .jsonErr genericError m :=
  serve_error_generic_error_field samplePost providerFailEnv emptyDb rfl

/-- C6: the handler's outcome (response, database writes and outbound
provider call) depends only on the HTTP method and the parsed body: two
requests differing only in the Authorization header (present, absent or
different) produce identical results. -/
theorem serve_ignores_authorization (m : String) (a1 a2 : Option String)
    (bo : Option BillingRequest) (pe : String) (env : Env) (db : Db) :
    serve ⟨m, a1, bo, pe⟩ env db = serve ⟨m, a2, bo, pe⟩ env db := rfl

/-- C7: an OPTIONS request is answered 200 with empty body and the
permissive cross-origin headers, whatever the body; any method other than
POST and OPTIONS is answered 405 with no body processing and no database
change. -/
theorem serve_method_dispatch :
    (∀ (a : Option String) (bo : Option BillingRequest) (pe : String)
        (env : Env) (db : Db),
      serve ⟨"OPTIONS", a, bo, pe⟩ env db =
        ⟨⟨200, corsHeaders, .empty⟩, db, none⟩) ∧
    (∀ (m : String) (a : Option String) (bo : Option BillingRequest)
        (pe : String) (env : Env) (db : Db),
      m ≠ "OPTIONS" → m ≠ "POST" →
      serve ⟨m, a, bo, pe⟩ env db =
        ⟨⟨405, corsHeaders, .text "Method not allowed"⟩, db, none⟩) := by
  constructor
  · intro a bo pe env db
    rfl
  · intro m a bo pe env db h1 h2
    simp only [serve]
    rw [if_neg (by simpa using h1), if_pos (by simpa using h2)]

/-- Witness for C7: an OPTIONS and a GET request. -/
theorem serve_method_dispatch_witness :
    serve ⟨"OPTIONS", none, some sampleBody, ""⟩ okEnv emptyDb =
      ⟨⟨200, corsHeaders, .empty⟩, emptyDb, none⟩ ∧
    serve ⟨"GET", none, some sampleBody, ""⟩ okEnv emptyDb =
      ⟨⟨405, corsHeaders, .text "Method not allowed"⟩, emptyDb, none⟩ :=
  ⟨serve_method_dispatch.1 none (some sampleBody) "" okEnv emptyDb,
   serve_method_dispatch.2 "GET" none (some sampleBody) "" okEnv emptyDb
     (by decide) (by decide)⟩

/-- C8: the initiator derives `name` from the profile's full name, falling
back to the part of the email before the `@`, then to the placeholder
`"Cliente"`; derives `cpf` from the profile, falling back to the all-zero
sentinel; and sends the fixed amount `9.90` and the fixed monthly-plan
description. -/
theorem subscribeRequest_fallbacks (u : AuthUser) :
    (∀ s, u.full_name = some s → s ≠ "" →
        (subscribeRequest u).body_name = s) ∧
    (∀ e, (u.full_name = none ∨ u.full_name = some "") → u.email = some e →
        localPart e ≠ "" → (subscribeRequest u).body_name = localPart e) ∧
    ((u.full_name = none ∨ u.full_name = some "") →
        (u.email = none ∨ u.email.map localPart = some "") →
        (subscribeRequest u).body_name = "Cliente") ∧
    (∀ c, u.cpf = some c → c ≠ "" → (subscribeRequest u).body_cpf = c) ∧
    ((u.cpf = none ∨ u.cpf = some "") →
        (subscribeRequest u).body_cpf = "00000000000") ∧
    (subscribeRequest u).body_amount = jsNumber (99/10) ∧
    (subscribeRequest u).body_description = "Assinatura mensal PRAXIS" := by
  refine ⟨?_, ?_, ?_, ?_, ?_, rfl, rfl⟩
  · intro s hs hne
    simp [subscribeRequest, jsOr, hs, hne]
  · intro e hf he hl
    rcases hf with hf | hf <;> simp [subscribeRequest, jsOr, hf, he, hl]
  · intro hf he
    rcases hE : u.email with _ | e
    · rcases hf with hf | hf <;> simp [subscribeRequest, jsOr, hf, hE]
    · have hl : localPart e = "" := by
        rcases he with he | he
        · rw [he] at hE
          exact Option.noConfusion hE
        · rw [hE] at he
          simpa using he
      rcases hf with hf | hf <;> simp [subscribeRequest, jsOr, hf, hE, hl]
  · intro c hc hne
    simp [subscribeRequest, jsOr, hc, hne]
  · intro hc
    rcases hc with hc | hc <;> simp [subscribeRequest, jsOr, hc]

/-- Witness for C8: the spec's scenario user (full name present, no cpf). -/
theorem subscribeRequest_fallbacks_witness :
    (subscribeRequest mariaUser).body_name = "Maria Silva" ∧
    (subscribeRequest mariaUser).body_cpf = "00000000000" ∧
    (subscribeRequest mariaUser).body_amount = jsNumber (99/10) ∧
    (subscribeRequest mariaUser).body_description =
      "Assinatura mensal PRAXIS" := by
  obtain ⟨h1, _, _, _, h5, h6, h7⟩ := subscribeRequest_fallbacks mariaUser
  exact ⟨h1 "Maria Silva" rfl (by decide), h5 (Or.inl rfl), h6, h7⟩

/-- C9: with no authenticated user, the initiator shows the localized
message, navigates to the login entry point, and issues no request (the
action is `unauthenticated`, not `request`). -/
theorem handleSubscribe_unauthenticated :
    handleSubscribe none =
      .unauthenticated "Você precisa estar logado para assinar"
        "/auth/login" := rfl

/-- C10: the product's `externalId` is `"praxis-monthly-"` followed by the
request's `user_id`; in particular for user `"abc123"` it is exactly
`"praxis-monthly-abc123"`. -/
theorem billing_externalId :
    (∀ b : BillingRequest,
      (mkBillingData b).products.map Product.externalId =
        ["praxis-monthly-" ++ b.user_id]) ∧
    (mkBillingData sampleBody).products.map Product.externalId =
      ["praxis-monthly-abc123"] :=
  ⟨fun _ => rfl, rfl⟩

end Praxis
